import Mathlib

/-!
Verification of the substrate CLI configuration resolver
(`src/client/cli/src/config.rs`) and the tracing primitives
(`src/primitives/tracing/src/lib.rs`), as a shallow embedding in Lean.

Conventions of the embedding:
* `PathBuf::join` with a relative component is string concatenation with a
  separator.
* The `CliConfiguration` trait is embedded as a record `CliSource`.  The three
  required methods (`base_path`, `chain_spec`, `database_config`) are fields
  returning `Except`; every provided (defaulted) method is an `Option` field
  whose `none` case selects the default body written in the source.
* `app_dirs::get_app_root` is an external service; its outcome is a parameter
  `platformRoot : Option Path`, where `none` is the failure case.  The
  `.expect(..)` call in the source maps to the `panicked` outcome of
  `RunResult`.
* The result of `generate_node_name` is nondeterministic; the candidate stream
  of the `names` generator is a parameter `stream : Nat → String`, and the
  unbounded `loop` is embedded with explicit fuel.
-/

namespace Substrate

/-- `std::path::PathBuf`, restricted to what the resolver uses. -/
structure Path where
  repr : String
deriving DecidableEq, Repr

/-- `PathBuf::join` with a single relative component. -/
def Path.join (p : Path) (component : String) : Path :=
  ⟨p.repr ++ ("/") ++ component⟩

/-- `crate::error::Error` (opaque collaborator; only its identity matters). -/
structure CliError where
  msg : String
deriving DecidableEq, Repr

/-- `sc_service::ChainSpec`, restricted to the two facets the resolver reads:
`id()` and `telemetry_endpoints()`. -/
structure ChainSpec where
  id : String
  telemetry_endpoints : Option (List String)
deriving DecidableEq, Repr

/-- `sc_service::config::Roles` (opaque collaborator). -/
inductive Roles where
  | FULL
  | LIGHT
  | AUTHORITY
  | SENTRY
deriving DecidableEq, Repr

/-- `sc_service::config::TransactionPoolOptions` (opaque collaborator). -/
structure TransactionPoolOptions where
  tag : Nat
deriving DecidableEq, Repr

/-- `Default::default()` of `TransactionPoolOptions`. -/
def TransactionPoolOptions.default : TransactionPoolOptions := ⟨0⟩

/-- `sc_service::config::NodeKeyConfig` (opaque collaborator). -/
structure NodeKeyConfig where
  tag : Nat
deriving DecidableEq, Repr

/-- `Default::default()` of `NodeKeyConfig`. -/
def NodeKeyConfig.default : NodeKeyConfig := ⟨0⟩

/-- `sc_service::config::KeystoreConfig`; the default body of
`keystore_config` returns the `InMemory` variant. -/
inductive KeystoreConfig where
  | InMemory
  | onDisk (path : Path)
deriving DecidableEq, Repr

/-- `sc_service::config::DatabaseConfig`: either a path-backed database with an
optional cache size, or a custom database (opaque). -/
inductive DatabaseConfig where
  | path (p : Path) (cache_size : Option Nat)
  | custom (tag : Nat)
deriving DecidableEq, Repr

/-- `sc_service::config::PruningMode` (opaque collaborator). -/
structure PruningMode where
  tag : Nat
deriving DecidableEq, Repr

/-- `Default::default()` of `PruningMode`. -/
def PruningMode.default : PruningMode := ⟨0⟩

/-- `sc_service::config::WasmExecutionMethod` (opaque collaborator). -/
structure WasmExecutionMethod where
  tag : Nat
deriving DecidableEq, Repr

/-- `Default::default()` of `WasmExecutionMethod`. -/
def WasmExecutionMethod.default : WasmExecutionMethod := ⟨0⟩

/-- `sc_service::config::ExecutionStrategies` (opaque collaborator). -/
structure ExecutionStrategies where
  tag : Nat
deriving DecidableEq, Repr

/-- `Default::default()` of `ExecutionStrategies`. -/
def ExecutionStrategies.default : ExecutionStrategies := ⟨0⟩

/-- `std::net::SocketAddr` (opaque collaborator). -/
structure SocketAddr where
  tag : Nat
deriving DecidableEq, Repr

/-- `sc_service::config::PrometheusConfig` (opaque collaborator). -/
structure PrometheusConfig where
  tag : Nat
deriving DecidableEq, Repr

/-- `sc_service::config::ExtTransport` (opaque collaborator). -/
structure ExtTransport where
  tag : Nat
deriving DecidableEq, Repr

/-- `sc_tracing::TracingReceiver` (opaque collaborator). -/
structure TracingReceiver where
  tag : Nat
deriving DecidableEq, Repr

/-- `Default::default()` of `TracingReceiver`. -/
def TracingReceiver.default : TracingReceiver := ⟨0⟩

/-- The task-executor handle: an opaque callable stored in the configuration
and never invoked by this core; embedded as an opaque tag. -/
structure TaskExecutor where
  tag : Nat
deriving DecidableEq, Repr

/-- `sc_service::config::NetworkConfiguration`, restricted to the four fields
set by `NetworkConfiguration::new` in the default `network_config` body. -/
structure NetworkConfiguration where
  node_name : String
  client_id : String
  node_key : NodeKeyConfig
  net_config_dir : Path
deriving DecidableEq, Repr

/-- `NetworkConfiguration::new(node_name, client_id, node_key,
net_config_dir)`. -/
def NetworkConfiguration.new (node_name : String) (client_id : String)
    (node_key : NodeKeyConfig) (net_config_dir : Path) : NetworkConfiguration :=
  ⟨node_name, client_id, node_key, net_config_dir⟩

/-- The `SubstrateCLI` implementation: the static identity strings the
resolver reads (`get_executable_name`, `get_author`, `client_id`,
`get_impl_name`, `get_impl_version`). -/
structure SubstrateCLI where
  executable_name : String
  author : String
  client_id : String
  impl_name : String
  impl_version : String
deriving DecidableEq, Repr

/-- `sc_service::config::Configuration`: the aggregate built by
`create_configuration`, field for field as in `config.rs` lines 245-283. -/
structure Configuration where
  impl_name : String
  impl_version : String
  roles : Roles
  task_executor : TaskExecutor
  transaction_pool : TransactionPoolOptions
  network : NetworkConfiguration
  keystore : KeystoreConfig
  database : DatabaseConfig
  state_cache_size : Nat
  state_cache_child_ratio : Option Nat
  pruning : PruningMode
  wasm_method : WasmExecutionMethod
  execution_strategies : ExecutionStrategies
  rpc_http : Option SocketAddr
  rpc_ws : Option SocketAddr
  rpc_ws_max_connections : Option Nat
  rpc_cors : Option (List String)
  prometheus_config : Option PrometheusConfig
  telemetry_endpoints : Option (List String)
  telemetry_external_transport : Option ExtTransport
  default_heap_pages : Option Nat
  offchain_worker : Bool
  sentry_mode : Bool
  force_authoring : Bool
  disable_grandpa : Bool
  dev_key_seed : Option String
  tracing_targets : Option String
  tracing_receiver : TracingReceiver
  chain_spec : ChainSpec
  max_runtime_instances : Nat
deriving DecidableEq, Repr

/-- Outcome of a Rust function that may return `Ok`, return `Err`, or panic
(the `.expect(..)` call in `create_configuration`). -/
inductive RunResult (ε : Type) (α : Type) where
  | ok (a : α)
  | err (e : ε)
  | panicked (msg : String)
deriving DecidableEq, Repr

/-- The `CliConfiguration` trait object.  The three required methods are
`Except`-valued fields; each provided method is an `Option` field: `none`
selects the default body from `config.rs`, `some` is a caller override. -/
structure CliSource where
  base_path : Except CliError (Option Path)
  chain_spec : Except CliError ChainSpec
  database_config : Path → Option Nat → Except CliError DatabaseConfig
  is_dev : Option Bool
  roles : Option (Bool → Roles)
  transaction_pool : Option TransactionPoolOptions
  network_config : Option (ChainSpec → Bool → Path → String → String →
    NodeKeyConfig → NetworkConfiguration)
  keystore_config : Option (Path → KeystoreConfig)
  database_cache_size : Option (Option Nat)
  state_cache_size : Option Nat
  state_cache_child_ratio : Option (Option Nat)
  pruning : Option (Bool → Roles → PruningMode)
  node_name : Option String
  wasm_method : Option WasmExecutionMethod
  execution_strategies : Option (Bool → ExecutionStrategies)
  rpc_http : Option (Option SocketAddr)
  rpc_ws : Option (Option SocketAddr)
  rpc_ws_max_connections : Option (Option Nat)
  rpc_cors : Option (Bool → Option (List String))
  prometheus_config : Option (Option PrometheusConfig)
  telemetry_endpoints : Option (ChainSpec → Option (List String))
  telemetry_external_transport : Option (Option ExtTransport)
  default_heap_pages : Option (Option Nat)
  offchain_worker : Option (Roles → Bool)
  sentry_mode : Option Bool
  force_authoring : Option Bool
  disable_grandpa : Option Bool
  dev_key_seed : Option (Bool → Option String)
  tracing_targets : Option (Option String)
  tracing_receiver : Option TracingReceiver
  node_key : Option (Path → NodeKeyConfig)
  max_runtime_instances : Option (Option Nat)

/-- `NODE_NAME_MAX_LENGTH` (config.rs line 36). -/
def NODE_NAME_MAX_LENGTH : Nat := 32

/-- `DEFAULT_NETWORK_CONFIG_PATH` (config.rs line 39). -/
def DEFAULT_NETWORK_CONFIG_PATH : String := "network"

/-- The config-directory derivation of `create_configuration` lines 232-236:
the supplied base path, or else the platform default application-data root,
joined with `chains` and the chain id. -/
def resolveConfigDir (basePath : Option Path) (defaultConfigDir : Path)
    (chainId : String) : Path :=
  ((basePath.getD defaultConfigDir).join ("chains")).join chainId

/-- The network-directory derivation of `create_configuration` line 237:
`config_dir.join(DEFAULT_NETWORK_CONFIG_PATH)`. -/
def resolveNetConfigDir (configDir : Path) : Path :=
  configDir.join DEFAULT_NETWORK_CONFIG_PATH

/-- The cache-size argument built at line 240 of `config.rs`:
`Some(self.database_cache_size()?.unwrap_or(128))`.  The inner
`s.database_cache_size.getD none` is the method call (default body
`Ok(None)`), the `.getD 128` is `unwrap_or(128)`, and the outer `some` is the
explicit `Some(..)` wrapper. -/
def databaseCacheArg (s : CliSource) : Option Nat :=
  some ((s.database_cache_size.getD none).getD 128)

/-- `CliConfiguration::create_configuration` (config.rs lines 218-284),
embedded with the evaluation order of the source: `chain_spec` (line 222),
`is_dev` (223), `app_dirs::get_app_root(..).expect(..)` (224-231, a panic when
the platform service fails), `base_path` (233), directory derivation
(232-237), then the remaining facets, each falling back to its default body.
`platformRoot` is the outcome of the platform application-directory service
and `genName` the value `generate_node_name()` would produce. -/
def createConfiguration (cli : SubstrateCLI) (s : CliSource)
    (platformRoot : Option Path) (genName : String)
    (task_executor : TaskExecutor) : RunResult CliError Configuration :=
  match s.chain_spec with
  | .error e => .err e
  | .ok chain_spec =>
    let is_dev := s.is_dev.getD false
    match platformRoot with
    | none => .panicked ("app directories exist on all supported platforms; qed")
    | some default_config_dir =>
      match s.base_path with
      | .error e => .err e
      | .ok bp =>
        let config_dir := resolveConfigDir bp default_config_dir chain_spec.id
        let net_config_dir := resolveNetConfigDir config_dir
        let client_id := cli.client_id
        let database_cache_size := databaseCacheArg s
        let node_key := (s.node_key.getD (fun _ => NodeKeyConfig.default)) net_config_dir
        let roles := (s.roles.getD (fun _ => Roles.FULL)) is_dev
        let max_runtime_instances := (s.max_runtime_instances.getD none).getD 8
        let node_name := s.node_name.getD genName
        match s.database_config config_dir database_cache_size with
        | .error e => .err e
        | .ok database =>
          .ok {
            impl_name := cli.impl_name
            impl_version := cli.impl_version
            roles := roles
            task_executor := task_executor
            transaction_pool := s.transaction_pool.getD TransactionPoolOptions.default
            network := (s.network_config.getD
              (fun _cs _dev dir cid nname nkey =>
                NetworkConfiguration.new nname cid nkey dir))
              chain_spec is_dev net_config_dir client_id node_name node_key
            keystore := (s.keystore_config.getD (fun _ => .InMemory)) config_dir
            database := database
            state_cache_size := s.state_cache_size.getD 0
            state_cache_child_ratio := s.state_cache_child_ratio.getD none
            pruning := (s.pruning.getD (fun _ _ => PruningMode.default)) is_dev roles
            wasm_method := s.wasm_method.getD WasmExecutionMethod.default
            execution_strategies := (s.execution_strategies.getD
              (fun _ => ExecutionStrategies.default)) is_dev
            rpc_http := s.rpc_http.getD none
            rpc_ws := s.rpc_ws.getD none
            rpc_ws_max_connections := s.rpc_ws_max_connections.getD none
            rpc_cors := (s.rpc_cors.getD (fun _ => some [])) is_dev
            prometheus_config := s.prometheus_config.getD none
            telemetry_endpoints := (s.telemetry_endpoints.getD
              (fun cs => cs.telemetry_endpoints)) chain_spec
            telemetry_external_transport := s.telemetry_external_transport.getD none
            default_heap_pages := s.default_heap_pages.getD none
            offchain_worker := (s.offchain_worker.getD (fun _ => false)) roles
            sentry_mode := s.sentry_mode.getD false
            force_authoring := s.force_authoring.getD false
            disable_grandpa := s.disable_grandpa.getD false
            dev_key_seed := (s.dev_key_seed.getD (fun _ => none)) is_dev
            tracing_targets := s.tracing_targets.getD none
            tracing_receiver := s.tracing_receiver.getD TracingReceiver.default
            chain_spec := chain_spec
            max_runtime_instances := max_runtime_instances
          }

/-- Whether an override source supplies no facet values at all: every provided
method is left at its default body. -/
def noFacetOverrides (s : CliSource) : Prop :=
  s.is_dev = none ∧ s.roles = none ∧ s.transaction_pool = none ∧
  s.network_config = none ∧ s.keystore_config = none ∧
  s.database_cache_size = none ∧ s.state_cache_size = none ∧
  s.state_cache_child_ratio = none ∧ s.pruning = none ∧ s.node_name = none ∧
  s.wasm_method = none ∧ s.execution_strategies = none ∧ s.rpc_http = none ∧
  s.rpc_ws = none ∧ s.rpc_ws_max_connections = none ∧ s.rpc_cors = none ∧
  s.prometheus_config = none ∧ s.telemetry_endpoints = none ∧
  s.telemetry_external_transport = none ∧ s.default_heap_pages = none ∧
  s.offchain_worker = none ∧ s.sentry_mode = none ∧
  s.force_authoring = none ∧ s.disable_grandpa = none ∧
  s.dev_key_seed = none ∧ s.tracing_targets = none ∧
  s.tracing_receiver = none ∧ s.node_key = none ∧
  s.max_runtime_instances = none

/-- The configuration record `create_configuration` assembles on its success
path, given the outcomes `cs` of `chain_spec`, `bp` of `base_path`, `root` of
the platform service and `db` of `database_config`; mirrors lines 245-283 of
`config.rs`. -/
def resolvedConfiguration (cli : SubstrateCLI) (s : CliSource) (root : Path)
    (genName : String) (task_executor : TaskExecutor) (cs : ChainSpec)
    (bp : Option Path) (db : DatabaseConfig) : Configuration :=
  let is_dev := s.is_dev.getD false
  let config_dir := resolveConfigDir bp root cs.id
  let net_config_dir := resolveNetConfigDir config_dir
  let client_id := cli.client_id
  let node_key := (s.node_key.getD (fun _ => NodeKeyConfig.default)) net_config_dir
  let roles := (s.roles.getD (fun _ => Roles.FULL)) is_dev
  let max_runtime_instances := (s.max_runtime_instances.getD none).getD 8
  let node_name := s.node_name.getD genName
  { impl_name := cli.impl_name
    impl_version := cli.impl_version
    roles := roles
    task_executor := task_executor
    transaction_pool := s.transaction_pool.getD TransactionPoolOptions.default
    network := (s.network_config.getD
      (fun _cs _dev dir cid nname nkey =>
        NetworkConfiguration.new nname cid nkey dir))
      cs is_dev net_config_dir client_id node_name node_key
    keystore := (s.keystore_config.getD (fun _ => .InMemory)) config_dir
    database := db
    state_cache_size := s.state_cache_size.getD 0
    state_cache_child_ratio := s.state_cache_child_ratio.getD none
    pruning := (s.pruning.getD (fun _ _ => PruningMode.default)) is_dev roles
    wasm_method := s.wasm_method.getD WasmExecutionMethod.default
    execution_strategies := (s.execution_strategies.getD
      (fun _ => ExecutionStrategies.default)) is_dev
    rpc_http := s.rpc_http.getD none
    rpc_ws := s.rpc_ws.getD none
    rpc_ws_max_connections := s.rpc_ws_max_connections.getD none
    rpc_cors := (s.rpc_cors.getD (fun _ => some [])) is_dev
    prometheus_config := s.prometheus_config.getD none
    telemetry_endpoints := (s.telemetry_endpoints.getD
      (fun c => c.telemetry_endpoints)) cs
    telemetry_external_transport := s.telemetry_external_transport.getD none
    default_heap_pages := s.default_heap_pages.getD none
    offchain_worker := (s.offchain_worker.getD (fun _ => false)) roles
    sentry_mode := s.sentry_mode.getD false
    force_authoring := s.force_authoring.getD false
    disable_grandpa := s.disable_grandpa.getD false
    dev_key_seed := (s.dev_key_seed.getD (fun _ => none)) is_dev
    tracing_targets := s.tracing_targets.getD none
    tracing_receiver := s.tracing_receiver.getD TracingReceiver.default
    chain_spec := cs
    max_runtime_instances := max_runtime_instances }

/-- The `loop` of `generate_node_name` (config.rs lines 298-305): sample the
candidate at index `i` of the generator stream, return it if its character
count is below `NODE_NAME_MAX_LENGTH`, otherwise continue; embedded with
explicit fuel since the source loop is unbounded. -/
def nodeNameLoop (stream : Nat → String) : Nat → Nat → Option String
  | _, 0 => none
  | i, fuel + 1 =>
    let node_name := stream i
    let count := node_name.length
    if count < NODE_NAME_MAX_LENGTH then some node_name
    else nodeNameLoop stream (i + 1) fuel

/-- `generate_node_name` (config.rs lines 296-308) over a candidate stream,
starting the loop at the first candidate. -/
def generateNodeName (stream : Nat → String) (fuel : Nat) : Option String :=
  nodeNameLoop stream 0 fuel

end Substrate

namespace SpTracing

/-- One observable action of the host tracing runtime: a span is created and
entered, or a span guard is dropped on scope exit. -/
inductive TraceEvent where
  | enter (name : String)
  | exit (name : String)
deriving DecidableEq, Repr

/-- The state owned by the tracing subsystem: the process-wide
`WASM_TRACING_ENABLED` flag (lib.rs line 45) and the list of span events the
host runtime has observed. -/
structure TracingState where
  wasmTracingEnabled : Bool
  events : List TraceEvent
deriving DecidableEq, Repr

/-- `enter_span!` in a `std` build (lib.rs lines 83-90, with `if_tracing!`
expanding to its argument, lines 95-97): create a span and enter it; the
guard lives until scope exit.  The expansion never reads
`WASM_TRACING_ENABLED`. -/
def enterSpanStd (name : String) (st : TracingState) : TracingState :=
  { st with events := st.events ++ [TraceEvent.enter name] }

/-- The drop of the span guard bound by `enter_span!` at the end of the
enclosing scope. -/
def exitSpanStd (name : String) (st : TracingState) : TracingState :=
  { st with events := st.events ++ [TraceEvent.exit name] }

/-- `enter_span!` in a `no_std` build (lib.rs lines 100-103): `if_tracing!`
expands to the empty block, so the construct is a no-op. -/
def enterSpanNoStd (_name : String) (st : TracingState) : TracingState := st

/-- `tracing_span! { name; code }` in a `std` build (lib.rs lines 61-71):
enter the span, run the block, drop the guard on scope exit.  The block is a
state transformer on the program state `σ` returning `α`; it cannot touch the
tracing state, which the construct threads separately. -/
def tracingSpanStd {σ α : Type} (name : String) (code : σ → σ × α)
    (st : σ × TracingState) : (σ × TracingState) × α :=
  let entered := enterSpanStd name st.2
  let res := code st.1
  ((res.1, exitSpanStd name entered), res.2)

/-- `tracing_span! { name; code }` in a `no_std` build: both `if_tracing!`
expansions are empty, so only the block itself runs. -/
def tracingSpanNoStd {σ α : Type} (name : String) (code : σ → σ × α)
    (st : σ × TracingState) : (σ × TracingState) × α :=
  let res := code st.1
  ((res.1, enterSpanNoStd name st.2), res.2)

/-- An operation on the `WASM_TRACING_ENABLED` atomic.  The load is
`AtomicBool::load`.  Modelled from the spec: the only write the process ever
performs is the single store of `true` during process start-up (the setter
lives outside the shown sources); so the store operation carries the value
`true`. -/
inductive FlagOp where
  | load
  | storeTrue
deriving DecidableEq, Repr

/-- Effect of one atomic operation on the flag value: a load leaves it
unchanged, the store sets it to `true`. -/
def flagStep (b : Bool) (op : FlagOp) : Bool :=
  match op with
  | .load => b
  | .storeTrue => true

/-- The flag value after a sequence of atomic operations, starting from the
declared initial value `AtomicBool::new(false)` (lib.rs line 45).  Concurrent
threads are embedded by their interleaving into one operation sequence, which
is faithful for a single atomic cell (per-location coherence). -/
def flagAfter (ops : List FlagOp) : Bool :=
  ops.foldl flagStep false

/-- The value a load placed after the prefix `pre` observes: atomic loads
return the current cell value. -/
def loadObserves (pre : List FlagOp) : Bool :=
  flagAfter pre

end SpTracing

namespace Substrate

/-- A concrete `SubstrateCLI` identity used for witnesses. -/
def exCli : SubstrateCLI :=
  { executable_name := "substrate"
    author := "parity"
    client_id := "substrate/1.0"
    impl_name := "substrate-node"
    impl_version := "1.0" }

/-- A concrete override source that supplies no facet values; the chain spec
resolves, the base path resolves to nothing, and the database step echoes the
arguments it receives. -/
def exSourceBare : CliSource :=
  { base_path := .ok none
    chain_spec := .ok ⟨"dev", none⟩
    database_config := fun p c => .ok (.path p c)
    is_dev := none
    roles := none
    transaction_pool := none
    network_config := none
    keystore_config := none
    database_cache_size := none
    state_cache_size := none
    state_cache_child_ratio := none
    pruning := none
    node_name := none
    wasm_method := none
    execution_strategies := none
    rpc_http := none
    rpc_ws := none
    rpc_ws_max_connections := none
    rpc_cors := none
    prometheus_config := none
    telemetry_endpoints := none
    telemetry_external_transport := none
    default_heap_pages := none
    offchain_worker := none
    sentry_mode := none
    force_authoring := none
    disable_grandpa := none
    dev_key_seed := none
    tracing_targets := none
    tracing_receiver := none
    node_key := none
    max_runtime_instances := none }

/-- The scenario source of the spec: chain id `testnet`, base path
`/data/node1`, nothing else supplied. -/
def exSourceScenario : CliSource :=
  { exSourceBare with
    base_path := .ok (some ⟨"/data/node1"⟩)
    chain_spec := .ok ⟨"testnet", none⟩ }

/-- A source whose `base_path` method fails while the chain spec resolves and
the database step always succeeds. -/
def exSourceBasePathErr : CliSource :=
  { exSourceBare with base_path := .error ⟨"base path io failure"⟩ }

/-- The configuration resolved from `exSourceBare` with platform root
`/root`, generated name `alice` and the echoing database step. -/
def exCfgBare : Configuration :=
  resolvedConfiguration exCli exSourceBare ⟨"/root"⟩ ("alice") ⟨0⟩
    ⟨"dev", none⟩ none
    (DatabaseConfig.path (resolveConfigDir none ⟨"/root"⟩ ("dev"))
      (databaseCacheArg exSourceBare))

end Substrate

namespace Substrate

/-- Success path of `createConfiguration`: when the chain spec, the base path
and the database step all resolve, the result is the assembled record. -/
theorem createConfiguration_ok (cli : SubstrateCLI) (s : CliSource)
    (root : Path) (g : String) (te : TaskExecutor) (cs : ChainSpec)
    (bp : Option Path) (db : DatabaseConfig)
    (hcs : s.chain_spec = Except.ok cs) (hbp : s.base_path = Except.ok bp)
    (hdb : s.database_config (resolveConfigDir bp root cs.id)
      (databaseCacheArg s) = Except.ok db) :
    createConfiguration cli s (some root) g te =
      RunResult.ok (resolvedConfiguration cli s root g te cs bp db) := by
  unfold createConfiguration resolvedConfiguration
  rw [hcs, hbp]
  simp only [hdb]

/-- Any candidate the generator loop returns is short. -/
theorem nodeNameLoop_some_short (stream : Nat → String) :
    ∀ (fuel i : Nat) (r : String), nodeNameLoop stream i fuel = some r →
      r.length < NODE_NAME_MAX_LENGTH := by
  intro fuel
  induction fuel with
  | zero => intro i r h; simp [nodeNameLoop] at h
  | succ fuel ih =>
    intro i r h
    by_cases hs : (stream i).length < NODE_NAME_MAX_LENGTH
    · rw [nodeNameLoop] at h
      simp only [hs, if_pos, Option.some.injEq] at h
      rw [← h]
      exact hs
    · rw [nodeNameLoop] at h
      simp only [hs, if_neg] at h
      exact ih (i + 1) r h

/-- If the first `k` candidates from index `i` are long and candidate `i + k`
is short, the loop with `k + 1` units of fuel stops exactly at `i + k`. -/
theorem nodeNameLoop_first (stream : Nat → String) :
    ∀ (k i : Nat),
      (∀ j, j < k → ¬ (stream (i + j)).length < NODE_NAME_MAX_LENGTH) →
      (stream (i + k)).length < NODE_NAME_MAX_LENGTH →
      nodeNameLoop stream i (k + 1) = some (stream (i + k)) := by
  intro k
  induction k with
  | zero =>
    intro i _ hshort
    rw [nodeNameLoop]
    simp only [Nat.add_zero] at hshort
    simp [hshort]
  | succ k ih =>
    intro i hall hshort
    have hlong : ¬ (stream i).length < NODE_NAME_MAX_LENGTH := by
      have h0 := hall 0 (Nat.succ_pos k)
      simpa using h0
    have h1 : ∀ j, j < k → ¬ (stream (i + 1 + j)).length < NODE_NAME_MAX_LENGTH := by
      intro j hj
      have hj1 := hall (j + 1) (Nat.succ_lt_succ hj)
      have e : i + (j + 1) = i + 1 + j := by omega
      rwa [e] at hj1
    have h2 : (stream (i + 1 + k)).length < NODE_NAME_MAX_LENGTH := by
      have e : i + (k + 1) = i + 1 + k := by omega
      rwa [e] at hshort
    have hrec := ih (i + 1) h1 h2
    rw [nodeNameLoop]
    simp only [hlong, if_neg]
    rw [show i + (k + 1) = i + 1 + k by omega]
    exact hrec

end Substrate

namespace SpTracing

/-- One step of the flag automaton from `true` stays `true`. -/
theorem flagStep_true (op : FlagOp) : flagStep true op = true := by
  cases op <;> rfl

/-- Any sequence of atomic operations keeps the flag at `true`. -/
theorem flagFoldl_true (post : List FlagOp) :
    post.foldl flagStep true = true := by
  induction post with
  | nil => rfl
  | cons op post ih => rw [List.foldl_cons, flagStep_true]; exact ih

end SpTracing

/-- C4: every string returned by the node-name generator loop, over any
candidate stream and any amount of fuel, has strictly fewer than 32
characters. -/
theorem claim_C4_node_name_short (stream : Nat → String) (fuel : Nat)
    (r : String) (h : Substrate.generateNodeName stream fuel = some r) :
    r.length < Substrate.NODE_NAME_MAX_LENGTH :=
  Substrate.nodeNameLoop_some_short stream fuel 0 r h

/-- Witness for C4 at the constant candidate stream. -/
theorem claim_C4_node_name_short_witness :
    (("alice") : String).length < Substrate.NODE_NAME_MAX_LENGTH :=
  claim_C4_node_name_short (fun _ => ("alice")) 1 ("alice") rfl

/-- C5: whenever the candidate stream eventually contains a candidate shorter
than 32 characters, the generator terminates (some finite fuel suffices) and
returns exactly the first such candidate. -/
theorem claim_C5_first_short_candidate (stream : Nat → String)
    (h : ∃ n, (stream n).length < Substrate.NODE_NAME_MAX_LENGTH) :
    ∃ fuel k, Substrate.generateNodeName stream fuel = some (stream k) ∧
      (stream k).length < Substrate.NODE_NAME_MAX_LENGTH ∧
      ∀ j, j < k → ¬ (stream j).length < Substrate.NODE_NAME_MAX_LENGTH := by
  refine ⟨Nat.find h + 1, Nat.find h, ?_, Nat.find_spec h,
    fun j hj => Nat.find_min h hj⟩
  have hall : ∀ j, j < Nat.find h →
      ¬ (stream (0 + j)).length < Substrate.NODE_NAME_MAX_LENGTH := by
    intro j hj
    simpa using Nat.find_min h hj
  have hshort : (stream (0 + Nat.find h)).length < Substrate.NODE_NAME_MAX_LENGTH := by
    simpa using Nat.find_spec h
  have hrun := Substrate.nodeNameLoop_first stream (Nat.find h) 0 hall hshort
  simpa [Substrate.generateNodeName] using hrun

/-- Witness for C5 at the constant candidate stream. -/
theorem claim_C5_first_short_candidate_witness :
    ∃ (fuel k : Nat),
      Substrate.generateNodeName (fun _ => ("bob")) fuel = some ("bob") ∧
      (("bob") : String).length < Substrate.NODE_NAME_MAX_LENGTH ∧
      ∀ j, j < k → ¬ (("bob") : String).length < Substrate.NODE_NAME_MAX_LENGTH :=
  claim_C5_first_short_candidate (fun _ => ("bob")) ⟨0, by decide⟩

/-- C6: wrapping a block in `tracing_span!` leaves the program state and the
return value of the block unchanged and does not touch the enable flag, in
both build modes; in the `no_std` build both `tracing_span!` and
`enter_span!` are no-ops, in particular the tracing state is left untouched
as well. -/
theorem claim_C6_span_transparent {σ α : Type} (name : String)
    (code : σ → σ × α) (s : σ) (t : SpTracing.TracingState) :
    ((SpTracing.tracingSpanStd name code (s, t)).1.1 = (code s).1 ∧
      (SpTracing.tracingSpanStd name code (s, t)).2 = (code s).2 ∧
      (SpTracing.tracingSpanStd name code (s, t)).1.2.wasmTracingEnabled =
        t.wasmTracingEnabled) ∧
    (SpTracing.tracingSpanNoStd name code (s, t) = (((code s).1, t), (code s).2)) ∧
    (SpTracing.enterSpanNoStd name t = t) :=
  ⟨⟨rfl, rfl, rfl⟩, rfl, rfl⟩

/-- C9: in a `std` build, `enter_span!` and `tracing_span!` always create and
enter a span; the expansion neither reads nor writes the process-wide enable
flag, so the recorded events are identical for any two flag values. -/
theorem claim_C9_span_ignores_flag {σ α : Type} (name : String)
    (es : List SpTracing.TraceEvent) (b b' : Bool) (code : σ → σ × α) (s : σ) :
    (SpTracing.enterSpanStd name ⟨b, es⟩).events =
      es ++ [SpTracing.TraceEvent.enter name] ∧
    (SpTracing.enterSpanStd name ⟨b, es⟩).events =
      (SpTracing.enterSpanStd name ⟨b', es⟩).events ∧
    (SpTracing.enterSpanStd name ⟨b, es⟩).wasmTracingEnabled = b ∧
    (SpTracing.tracingSpanStd name code (s, ⟨b, es⟩)).1.2.events =
      es ++ [SpTracing.TraceEvent.enter name] ++ [SpTracing.TraceEvent.exit name] ∧
    (SpTracing.tracingSpanStd name code (s, ⟨b, es⟩)).1.2.events =
      (SpTracing.tracingSpanStd name code (s, ⟨b', es⟩)).1.2.events :=
  ⟨rfl, rfl, rfl, rfl, rfl⟩

/-- C8: the process-wide tracing flag starts at `false`; a store of `true`
makes the value `true`; and once the value is `true` after some prefix of
operations, every later load, in any interleaving of further operations,
observes `true`. -/
theorem claim_C8_flag_monotone :
    SpTracing.flagAfter [] = false ∧
    (∀ pre, SpTracing.flagAfter (pre ++ [SpTracing.FlagOp.storeTrue]) = true) ∧
    (∀ pre post, SpTracing.flagAfter pre = true →
      SpTracing.loadObserves (pre ++ post) = true) := by
  refine ⟨rfl, ?_, ?_⟩
  · intro pre
    unfold SpTracing.flagAfter
    rw [List.foldl_append]
    rfl
  · intro pre post h
    unfold SpTracing.loadObserves SpTracing.flagAfter
    unfold SpTracing.flagAfter at h
    rw [List.foldl_append, h]
    exact SpTracing.flagFoldl_true post

/-- Witness for C8: a load after the store observes `true`. -/
theorem claim_C8_flag_monotone_witness :
    SpTracing.loadObserves
      ([SpTracing.FlagOp.storeTrue] ++ [SpTracing.FlagOp.load]) = true :=
  claim_C8_flag_monotone.2.2 [SpTracing.FlagOp.storeTrue]
    [SpTracing.FlagOp.load] rfl

/-- C1 counterexample: when the platform application-directory service cannot
determine a default root (`platformRoot = none`), `create_configuration`
terminates with the unconditional `expect` panic, not with a value on the
resolution-error channel. -/
theorem claim_C1_platform_failure_panics :
    Substrate.createConfiguration Substrate.exCli Substrate.exSourceBare none
      ("alice") ⟨0⟩ =
      Substrate.RunResult.panicked
        ("app directories exist on all supported platforms; qed") := rfl

/-- C1 amended: whenever the chain specification resolves but the platform
application-directory service cannot determine a default root,
`create_configuration` panics with the `expect` message, bypassing the
resolution-error channel; this holds even when the caller supplies a base
path. -/
theorem claim_C1_platform_failure_amended (cli : Substrate.SubstrateCLI)
    (s : Substrate.CliSource) (g : String) (te : Substrate.TaskExecutor)
    (cs : Substrate.ChainSpec) (hcs : s.chain_spec = Except.ok cs) :
    Substrate.createConfiguration cli s none g te =
      Substrate.RunResult.panicked
        ("app directories exist on all supported platforms; qed") := by
  unfold Substrate.createConfiguration
  rw [hcs]

/-- Witness for the amended C1: a source that supplies a base path still
panics when the platform service fails. -/
theorem claim_C1_platform_failure_amended_witness :
    Substrate.createConfiguration Substrate.exCli Substrate.exSourceScenario
      none ("bob") ⟨1⟩ =
      Substrate.RunResult.panicked
        ("app directories exist on all supported platforms; qed") :=
  claim_C1_platform_failure_amended Substrate.exCli Substrate.exSourceScenario
    ("bob") ⟨1⟩ ⟨"testnet", none⟩ rfl

/-- C2: for an override source supplying no facet values, every optional
facet of the resulting configuration equals its documented default; in
particular the cache-size argument handed to the database step is `some 128`
and `max_runtime_instances` is `8`. -/
theorem claim_C2_all_defaults (cli : Substrate.SubstrateCLI)
    (s : Substrate.CliSource) (root : Substrate.Path) (g : String)
    (te : Substrate.TaskExecutor) (cs : Substrate.ChainSpec)
    (bp : Option Substrate.Path) (db : Substrate.DatabaseConfig)
    (hnone : Substrate.noFacetOverrides s)
    (hcs : s.chain_spec = Except.ok cs)
    (hbp : s.base_path = Except.ok bp)
    (hdb : s.database_config (Substrate.resolveConfigDir bp root cs.id)
      (Substrate.databaseCacheArg s) = Except.ok db) :
    Substrate.databaseCacheArg s = some 128 ∧
    Substrate.createConfiguration cli s (some root) g te =
      Substrate.RunResult.ok
        { impl_name := cli.impl_name
          impl_version := cli.impl_version
          roles := Substrate.Roles.FULL
          task_executor := te
          transaction_pool := Substrate.TransactionPoolOptions.default
          network := Substrate.NetworkConfiguration.new g cli.client_id
            Substrate.NodeKeyConfig.default
            (Substrate.resolveNetConfigDir
              (Substrate.resolveConfigDir bp root cs.id))
          keystore := Substrate.KeystoreConfig.InMemory
          database := db
          state_cache_size := 0
          state_cache_child_ratio := none
          pruning := Substrate.PruningMode.default
          wasm_method := Substrate.WasmExecutionMethod.default
          execution_strategies := Substrate.ExecutionStrategies.default
          rpc_http := none
          rpc_ws := none
          rpc_ws_max_connections := none
          rpc_cors := some []
          prometheus_config := none
          telemetry_endpoints := cs.telemetry_endpoints
          telemetry_external_transport := none
          default_heap_pages := none
          offchain_worker := false
          sentry_mode := false
          force_authoring := false
          disable_grandpa := false
          dev_key_seed := none
          tracing_targets := none
          tracing_receiver := Substrate.TracingReceiver.default
          chain_spec := cs
          max_runtime_instances := 8 } := by
  obtain ⟨h1, h2, h3, h4, h5, h6, h7, h8, h9, h10, h11, h12, h13, h14, h15,
    h16, h17, h18, h19, h20, h21, h22, h23, h24, h25, h26, h27, h28, h29⟩ :=
    hnone
  refine ⟨?_, ?_⟩
  · simp [Substrate.databaseCacheArg, h6]
  · rw [Substrate.createConfiguration_ok cli s root g te cs bp db hcs hbp hdb]
    unfold Substrate.resolvedConfiguration
    simp [h1, h2, h3, h4, h5, h6, h7, h8, h9, h10, h11, h12, h13, h14, h15,
      h16, h17, h18, h19, h20, h21, h22, h23, h24, h25, h26, h27, h28, h29,
      Substrate.NetworkConfiguration.new]

/-- Witness for C2 at the bare override source. -/
theorem claim_C2_all_defaults_witness :
    Substrate.databaseCacheArg Substrate.exSourceBare = some 128 ∧
    Substrate.createConfiguration Substrate.exCli Substrate.exSourceBare
      (some ⟨"/root"⟩) ("alice") ⟨0⟩ =
      Substrate.RunResult.ok
        { impl_name := Substrate.exCli.impl_name
          impl_version := Substrate.exCli.impl_version
          roles := Substrate.Roles.FULL
          task_executor := ⟨0⟩
          transaction_pool := Substrate.TransactionPoolOptions.default
          network := Substrate.NetworkConfiguration.new ("alice")
            Substrate.exCli.client_id Substrate.NodeKeyConfig.default
            (Substrate.resolveNetConfigDir
              (Substrate.resolveConfigDir none ⟨"/root"⟩ ("dev")))
          keystore := Substrate.KeystoreConfig.InMemory
          database := Substrate.DatabaseConfig.path
            (Substrate.resolveConfigDir none ⟨"/root"⟩ ("dev"))
            (Substrate.databaseCacheArg Substrate.exSourceBare)
          state_cache_size := 0
          state_cache_child_ratio := none
          pruning := Substrate.PruningMode.default
          wasm_method := Substrate.WasmExecutionMethod.default
          execution_strategies := Substrate.ExecutionStrategies.default
          rpc_http := none
          rpc_ws := none
          rpc_ws_max_connections := none
          rpc_cors := some []
          prometheus_config := none
          telemetry_endpoints := none
          telemetry_external_transport := none
          default_heap_pages := none
          offchain_worker := false
          sentry_mode := false
          force_authoring := false
          disable_grandpa := false
          dev_key_seed := none
          tracing_targets := none
          tracing_receiver := Substrate.TracingReceiver.default
          chain_spec := ⟨"dev", none⟩
          max_runtime_instances := 8 } :=
  claim_C2_all_defaults Substrate.exCli Substrate.exSourceBare ⟨"/root"⟩
    ("alice") ⟨0⟩ ⟨"dev", none⟩ none
    (Substrate.DatabaseConfig.path
      (Substrate.resolveConfigDir none ⟨"/root"⟩ ("dev"))
      (Substrate.databaseCacheArg Substrate.exSourceBare))
    ⟨rfl, rfl, rfl, rfl, rfl, rfl, rfl, rfl, rfl, rfl, rfl, rfl, rfl, rfl,
      rfl, rfl, rfl, rfl, rfl, rfl, rfl, rfl, rfl, rfl, rfl, rfl, rfl, rfl,
      rfl⟩
    rfl rfl rfl

/-- C3: for every override source supplying a base path and a chain spec,
the resolver derives the config directory `<base-path>/chains/<chain-id>`
and the network directory `<config-dir>/network`, and hands the database
step the config directory as root; concretely, base path `/data/node1` with
chain id `testnet` yields network directory
`/data/node1/chains/testnet/network` and database root
`/data/node1/chains/testnet`; with no base path, the platform default
application-data root takes the place of the base path. -/
theorem claim_C3_directories :
    (∀ (cli : Substrate.SubstrateCLI) (s : Substrate.CliSource)
        (root : Substrate.Path) (g : String) (te : Substrate.TaskExecutor)
        (cs : Substrate.ChainSpec) (bpath : Substrate.Path),
      s.chain_spec = Except.ok cs →
      s.base_path = Except.ok (some bpath) →
      s.network_config = none →
      s.database_config =
        (fun p c => Except.ok (Substrate.DatabaseConfig.path p c)) →
      ∃ cfg, Substrate.createConfiguration cli s (some root) g te =
          Substrate.RunResult.ok cfg ∧
        cfg.network.net_config_dir =
          ((bpath.join ("chains")).join cs.id).join ("network") ∧
        cfg.database = Substrate.DatabaseConfig.path
          ((bpath.join ("chains")).join cs.id)
          (Substrate.databaseCacheArg s)) ∧
    (∀ (cli : Substrate.SubstrateCLI) (root : Substrate.Path) (g : String)
        (te : Substrate.TaskExecutor),
      ∃ cfg, Substrate.createConfiguration cli Substrate.exSourceScenario
          (some root) g te = Substrate.RunResult.ok cfg ∧
        cfg.network.net_config_dir = ⟨"/data/node1/chains/testnet/network"⟩ ∧
        cfg.database = Substrate.DatabaseConfig.path
          ⟨"/data/node1/chains/testnet"⟩ (some 128)) ∧
    (∀ (cli : Substrate.SubstrateCLI) (s : Substrate.CliSource)
        (root : Substrate.Path) (g : String) (te : Substrate.TaskExecutor)
        (cs : Substrate.ChainSpec) (db : Substrate.DatabaseConfig),
      s.chain_spec = Except.ok cs →
      s.base_path = Except.ok none →
      s.network_config = none →
      s.database_config (Substrate.resolveConfigDir none root cs.id)
        (Substrate.databaseCacheArg s) = Except.ok db →
      ∃ cfg, Substrate.createConfiguration cli s (some root) g te =
          Substrate.RunResult.ok cfg ∧
        cfg.network.net_config_dir =
          ((root.join ("chains")).join cs.id).join ("network") ∧
        cfg.database = db) := by
  refine ⟨?_, ?_, ?_⟩
  · intro cli s root g te cs bpath hcs hbp hnet hdbf
    refine ⟨_, Substrate.createConfiguration_ok cli s root g te cs
      (some bpath)
      (Substrate.DatabaseConfig.path ((bpath.join ("chains")).join cs.id)
        (Substrate.databaseCacheArg s))
      hcs hbp (by rw [hdbf]; rfl), ?_, ?_⟩
    · unfold Substrate.resolvedConfiguration
      simp [hnet, Substrate.resolveNetConfigDir, Substrate.resolveConfigDir,
        Substrate.DEFAULT_NETWORK_CONFIG_PATH,
        Substrate.NetworkConfiguration.new]
    · rfl
  · intro cli root g te
    refine ⟨_, Substrate.createConfiguration_ok cli Substrate.exSourceScenario
      root g te ⟨"testnet", none⟩ (some ⟨"/data/node1"⟩)
      (Substrate.DatabaseConfig.path ⟨"/data/node1/chains/testnet"⟩ (some 128))
      rfl rfl (by rfl), ?_, ?_⟩
    · rfl
    · rfl
  · intro cli s root g te cs db hcs hbp hnet hdb
    refine ⟨_, Substrate.createConfiguration_ok cli s root g te cs none db
      hcs hbp hdb, ?_, rfl⟩
    unfold Substrate.resolvedConfiguration
    simp [hnet, Substrate.resolveNetConfigDir, Substrate.resolveConfigDir,
      Substrate.DEFAULT_NETWORK_CONFIG_PATH, Substrate.NetworkConfiguration.new]

/-- Witness for C3 through its universal with-base-path half, at the
scenario source. -/
theorem claim_C3_directories_witness :
    ∃ cfg, Substrate.createConfiguration Substrate.exCli
        Substrate.exSourceScenario (some ⟨"/root"⟩) ("alice") ⟨0⟩ =
        Substrate.RunResult.ok cfg ∧
      cfg.network.net_config_dir =
        (((Substrate.Path.mk ("/data/node1")).join ("chains")).join
          ("testnet")).join ("network") ∧
      cfg.database = Substrate.DatabaseConfig.path
        (((Substrate.Path.mk ("/data/node1")).join ("chains")).join
          ("testnet"))
        (Substrate.databaseCacheArg Substrate.exSourceScenario) :=
  claim_C3_directories.1 Substrate.exCli Substrate.exSourceScenario ⟨"/root"⟩
    ("alice") ⟨0⟩ ⟨"testnet", none⟩ ⟨"/data/node1"⟩ rfl rfl rfl rfl

/-- C7 counterexample: a source whose chain specification resolves and whose
database step never fails can still drive `create_configuration` onto the
error channel, through the required, fallible `base_path` method; so the
database configuration and the chain specification are not the only fallible
steps. -/
theorem claim_C7_only_two_fallible_counterexample :
    ¬ (∀ (cli : Substrate.SubstrateCLI) (s : Substrate.CliSource)
        (pr : Option Substrate.Path) (g : String)
        (te : Substrate.TaskExecutor) (e : Substrate.CliError),
      (∀ p c, s.database_config p c ≠ Except.error e) →
      s.chain_spec ≠ Except.error e →
      Substrate.createConfiguration cli s pr g te ≠
        Substrate.RunResult.err e) := by
  intro h
  exact h Substrate.exCli Substrate.exSourceBasePathErr (some ⟨"/root"⟩)
    ("alice") ⟨0⟩ ⟨"base path io failure"⟩
    (fun p c hc => by
      simp [Substrate.exSourceBasePathErr, Substrate.exSourceBare] at hc)
    (by simp [Substrate.exSourceBasePathErr, Substrate.exSourceBare])
    rfl

/-- C7 amended: during `create_configuration` the base path, the chain
specification and the database configuration may fail, and any resolution
error returned to the caller is exactly one of those three failures,
propagated unchanged; every other facet is infallible. -/
theorem claim_C7_error_channel_amended (cli : Substrate.SubstrateCLI)
    (s : Substrate.CliSource) (pr : Option Substrate.Path) (g : String)
    (te : Substrate.TaskExecutor) (e : Substrate.CliError)
    (h : Substrate.createConfiguration cli s pr g te =
      Substrate.RunResult.err e) :
    s.chain_spec = Except.error e ∨ s.base_path = Except.error e ∨
      ∃ cs bp root, pr = some root ∧ s.chain_spec = Except.ok cs ∧
        s.base_path = Except.ok bp ∧
        s.database_config (Substrate.resolveConfigDir bp root cs.id)
          (Substrate.databaseCacheArg s) = Except.error e := by
  rcases hcs : s.chain_spec with e1 | cs1
  · simp only [Substrate.createConfiguration, hcs,
      Substrate.RunResult.err.injEq] at h
    subst h
    exact Or.inl rfl
  · rcases pr with _ | root
    · simp only [Substrate.createConfiguration, hcs] at h
      exact Substrate.RunResult.noConfusion h
    · rcases hbp : s.base_path with e1 | bp
      · simp only [Substrate.createConfiguration, hcs, hbp,
          Substrate.RunResult.err.injEq] at h
        subst h
        exact Or.inr (Or.inl rfl)
      · rcases hdb : s.database_config
            (Substrate.resolveConfigDir bp root cs1.id)
            (Substrate.databaseCacheArg s) with e1 | db
        · simp only [Substrate.createConfiguration, hcs, hbp, hdb,
            Substrate.RunResult.err.injEq] at h
          subst h
          exact Or.inr (Or.inr ⟨cs1, bp, root, rfl, rfl, rfl, hdb⟩)
        · simp only [Substrate.createConfiguration, hcs, hbp, hdb] at h
          exact Substrate.RunResult.noConfusion h

/-- Witness for the amended C7 at a source with a failing base path. -/
theorem claim_C7_error_channel_amended_witness :
    Substrate.exSourceBasePathErr.chain_spec =
        Except.error ⟨"base path io failure"⟩ ∨
      Substrate.exSourceBasePathErr.base_path =
        Except.error ⟨"base path io failure"⟩ ∨
      ∃ cs bp root,
        (some (Substrate.Path.mk ("/root")) : Option Substrate.Path) =
          some root ∧
        Substrate.exSourceBasePathErr.chain_spec = Except.ok cs ∧
        Substrate.exSourceBasePathErr.base_path = Except.ok bp ∧
        Substrate.exSourceBasePathErr.database_config
          (Substrate.resolveConfigDir bp root cs.id)
          (Substrate.databaseCacheArg Substrate.exSourceBasePathErr) =
          Except.error ⟨"base path io failure"⟩ :=
  claim_C7_error_channel_amended Substrate.exCli Substrate.exSourceBasePathErr
    (some ⟨"/root"⟩) ("alice") ⟨0⟩ ⟨"base path io failure"⟩ rfl

/-- C10: `create_configuration` always hands the database step a cache-size
argument of the form `some n`, never `none`, and `n = 128` whenever the
caller supplies no cache size. -/
theorem claim_C10_cache_arg_always_some (s : Substrate.CliSource)
    (cli : Substrate.SubstrateCLI) (root : Substrate.Path) (g : String)
    (te : Substrate.TaskExecutor) (cs : Substrate.ChainSpec)
    (bp : Option Substrate.Path) (cfg : Substrate.Configuration)
    (hcs : s.chain_spec = Except.ok cs)
    (hbp : s.base_path = Except.ok bp)
    (hdbf : s.database_config =
      fun p c => Except.ok (Substrate.DatabaseConfig.path p c))
    (hok : Substrate.createConfiguration cli s (some root) g te =
      Substrate.RunResult.ok cfg) :
    cfg.database = Substrate.DatabaseConfig.path
      (Substrate.resolveConfigDir bp root cs.id)
      (some ((s.database_cache_size.getD none).getD 128)) ∧
    Substrate.databaseCacheArg s ≠ none ∧
    (s.database_cache_size.getD none = none →
      Substrate.databaseCacheArg s = some 128) := by
  have hdb : s.database_config (Substrate.resolveConfigDir bp root cs.id)
      (Substrate.databaseCacheArg s) =
      Except.ok (Substrate.DatabaseConfig.path
        (Substrate.resolveConfigDir bp root cs.id)
        (Substrate.databaseCacheArg s)) := by
    rw [hdbf]
  have hresolved := Substrate.createConfiguration_ok cli s root g te cs bp _
    hcs hbp hdb
  have hcfg : Substrate.RunResult.ok (α := Substrate.Configuration)
      (Substrate.resolvedConfiguration cli s root g te cs bp
        (Substrate.DatabaseConfig.path
          (Substrate.resolveConfigDir bp root cs.id)
          (Substrate.databaseCacheArg s))) =
      Substrate.RunResult.ok cfg := hresolved.symm.trans hok
  injection hcfg with hcfg
  subst hcfg
  refine ⟨rfl, ?_, ?_⟩
  · simp [Substrate.databaseCacheArg]
  · intro hx
    simp [Substrate.databaseCacheArg, hx]

/-- Witness for C10 at the bare override source. -/
theorem claim_C10_cache_arg_always_some_witness :
    Substrate.exCfgBare.database = Substrate.DatabaseConfig.path
      (Substrate.resolveConfigDir none ⟨"/root"⟩ ("dev"))
      (some ((Substrate.exSourceBare.database_cache_size.getD none).getD 128)) ∧
    Substrate.databaseCacheArg Substrate.exSourceBare ≠ none ∧
    (Substrate.exSourceBare.database_cache_size.getD none = none →
      Substrate.databaseCacheArg Substrate.exSourceBare = some 128) :=
  claim_C10_cache_arg_always_some Substrate.exSourceBare Substrate.exCli
    ⟨"/root"⟩ ("alice") ⟨0⟩ ⟨"dev", none⟩ none Substrate.exCfgBare
    rfl rfl rfl rfl
